import Mathlib

/-!
Verification development for the mimosa integration-test runner
(`tests-integration/`): configuration-space enumeration, scaffold
materialization, command synthesis, the verify protocol, the bounded
scheduler and the registry client, shallowly embedded from the Python
sources and checked against the natural-language specification.

The embedding conventions:
* Python strings are `String`, paths are `PyPath` (component lists
  relative to one fixed root), dicts are association lists where a later
  entry overrides an earlier one.
* Fallible Python code (raises) returns `Option`/`Except`.
* External collaborators (jinja template rendering, `tempfile`, uuid
  generation, the registry's HTTP transport, `os.environ`) enter as
  explicit parameters; the pure logic around them is translated from the
  source.
-/

namespace Mimosa

/-! ## Definitions -/

/-! ### String helpers mirroring the Python primitives used by the code -/

/-- Mirrors Python `str.rindex(c)` followed by the two slices
`s[:i]` / `s[i+1:]`: splits a character list at the LAST occurrence of `c`,
returning `(before, after)`; `none` when `c` does not occur
(Python raises `ValueError`). -/
def rsplitChar (c : Char) : List Char → Option (List Char × List Char)
  | [] => none
  | a :: rest =>
    match rsplitChar c rest with
    | some (pre, post) => some (a :: pre, post)
    | none => if a = c then some ([], rest) else none

/-- Mirrors Python `needle in hay` on strings: substring (infix) test. -/
def pyContains (needle hay : String) : Bool :=
  decide (needle.data <:+: hay.data)

/-- Number of positions of `hay` at which `needle` occurs (used to state
the spec's "exactly once" sentinel requirement). -/
def countOccur (needle hay : String) : Nat :=
  (List.range (hay.data.length + 1)).countP
    (fun i => decide (needle.data <+: hay.data.drop i))

/-! ### `docker.decompose_tag` (tests-integration/docker.py)

```python
def decompose_tag(tag: str) -> Tuple[str, str, str]:
    hostname_index = tag.rindex("/")
    hostname = f"http://{tag[:hostname_index]}"
    image_name_full = tag[hostname_index + 1 :]
    image_name, tag_name = image_name_full.split(":")
    return hostname, image_name, tag_name
```

Python `s.split(":")` (all fields, empties kept) is `List.splitOn ':'`;
`rindex` raises when no slash occurs, and unpacking the split into two
names raises unless it has exactly two fields; both failure modes are
`none` here. -/

/-- List-level `decompose_tag`. -/
def decomposeTagL (tag : List Char) : Option (List Char × List Char × List Char) :=
  match rsplitChar '/' tag with
  | none => none
  | some (hostname, image_name_full) =>
    match image_name_full.splitOn ':' with
    | [image_name, tag_name] =>
      some ("http://".data ++ hostname, image_name, tag_name)
    | _ => none

/-- `decompose_tag` on strings. -/
def decompose_tag (tag : String) : Option (String × String × String) :=
  match decomposeTagL tag.data with
  | none => none
  | some (h, i, t) => some (⟨h⟩, ⟨i⟩, ⟨t⟩)

/-! ### ConfigSpace enumeration (tests-integration/run_tests.py, `main`)

`main` builds `test_configs` with seven nested loops over
`env_variable_to_list(var, default)` domains and `continue`s over the
pruning conditions; each surviving combination is appended once as a
seven-key dict. The `os.environ` lookups enter as the `TestEnvOverrides`
parameter (`""` models an unset variable, which `env_variable_to_list`
maps to the default just like Python's falsy check). -/

/-- `env_variable_to_list(var_name, default_value)`: the raw environment
value (`""` when unset) is split on commas, items stripped, empty items
dropped; an unset/empty variable yields the default domain. -/
def env_variable_to_list (value : String) (default_value : List String) : List String :=
  if value = "" then default_value
  else ((value.splitOn ",").map String.trim).filter (fun item => item != "")

/-- The `continue` conditions of the enumeration loop: with
`bakefile_type == "none"`, no `multiple` dockerfiles, dockerignores or
targets; with `bakefile_type` `"single"`/`"multiple"`, the context must
be `"cwd"`. -/
def prunedConfig (bakefile_type dockerfile_type targets dockerignore ctx : String) : Bool :=
  if bakefile_type = "none" then
    dockerfile_type = "multiple" || dockerignore = "multiple" || targets = "multiple"
  else if bakefile_type = "single" && ctx = "subdir" then true
  else if bakefile_type = "multiple" && ctx = "subdir" then true
  else false

/-- The Python `setup_config` dict: keys in insertion order. -/
abbrev SetupDict := List (String × String)

/-- The seven per-field environment overrides read by `main`
(empty string models an unset variable). -/
structure TestEnvOverrides where
  bakefile_type : String := ""
  bakefile_location : String := ""
  dockerfile_type : String := ""
  dockerfile_location : String := ""
  targets : String := ""
  dockerignore : String := ""
  ctx : String := ""

/-- The nested enumeration loop of `main` (run_tests.py): Cartesian
product of the seven domains in declared order, pruned combinations
skipped, each survivor appended once as the dict literal from the code.
Note: the loops never produce a `cache_source` key. -/
def enumerate_test_configs (env : TestEnvOverrides) : List SetupDict :=
  (env_variable_to_list env.bakefile_type ["single", "multiple", "none"]).flatMap fun bakefile_type =>
  (env_variable_to_list env.bakefile_location ["root", "subdir"]).flatMap fun bakefile_location =>
  (env_variable_to_list env.dockerfile_type ["single", "multiple"]).flatMap fun dockerfile_type =>
  (env_variable_to_list env.dockerfile_location ["root", "subdir"]).flatMap fun dockerfile_location =>
  (env_variable_to_list env.targets ["single", "multiple"]).flatMap fun targets =>
  (env_variable_to_list env.dockerignore ["single", "multiple", "none"]).flatMap fun dockerignore =>
  (env_variable_to_list env.ctx ["cwd", "subdir"]).flatMap fun ctx =>
  if prunedConfig bakefile_type dockerfile_type targets dockerignore ctx then []
  else
    [[("bakefile_type", bakefile_type),
      ("bakefile_location", bakefile_location),
      ("dockerfile_type", dockerfile_type),
      ("dockerfile_location", dockerfile_location),
      ("targets", targets),
      ("dockerignore", dockerignore),
      ("context", ctx)]]

/-- `SetupConfig` (tests-integration/test_setup.py): a pydantic model
with EIGHT required `Literal` fields — `cache_source` included, with no
default. Field values stay `String`; `SetupConfig.ofDict` carries the
`Literal` validation. -/
structure SetupConfig where
  bakefile_type : String
  bakefile_location : String
  dockerfile_type : String
  dockerfile_location : String
  targets : String
  dockerignore : String
  ctx : String
  cache_source : String
  deriving DecidableEq

/-- One pydantic field check: the key must be present in the keyword
dict and its value must belong to the `Literal` domain. -/
def validateField (d : SetupDict) (name : String) (allowed : List String) :
    Except String String :=
  match d.lookup name with
  | none => Except.error ("field required: " ++ name)
  | some v =>
      if v ∈ allowed then Except.ok v
      else Except.error ("invalid value for field: " ++ name)

/-- `SetupConfig(**setup_config_dict)` (run_test_worker): pydantic
validates every declared field; a missing required field — such as
`cache_source`, which has no default — raises a validation error. -/
def SetupConfig.ofDict (d : SetupDict) : Except String SetupConfig := do
  let bakefile_type ← validateField d "bakefile_type" ["single", "multiple", "none"]
  let bakefile_location ← validateField d "bakefile_location" ["root", "subdir"]
  let dockerfile_type ← validateField d "dockerfile_type" ["single", "multiple"]
  let dockerfile_location ← validateField d "dockerfile_location" ["root", "subdir"]
  let targets ← validateField d "targets" ["single", "multiple"]
  let dockerignore ← validateField d "dockerignore" ["single", "multiple", "none"]
  let ctx ← validateField d "context" ["cwd", "subdir"]
  let cache_source ← validateField d "cache_source" ["disk", "memory"]
  pure ⟨bakefile_type, bakefile_location, dockerfile_type, dockerfile_location,
    targets, dockerignore, ctx, cache_source⟩

/-! ### Scaffold (tests-integration/test_creator.py)

Paths are component lists relative to a fixed filesystem root; the
per-case `output_dir` is itself such a list. Jinja template rendering is
the external templating collaborator: it enters as a
`render : String → String` function from template name to rendered
content (the Python code renders each template against `setup_config`;
the claims do not depend on rendered content). `mkdir` and the final
`write_text` loop are filesystem effects; the returned `TemplatedFile`
list is exactly what each Python function writes and returns. -/

abbrev PyPath := List String

/-- `TemplatedFile` (pydantic model): a location plus rendered content. -/
structure TemplatedFile where
  location : PyPath
  content : String
  deriving DecidableEq

/-- Python `Path.name`: the final path component. -/
def pathName (p : PyPath) : String := p.getLast?.getD ""

/-- Python f-string `f"{path}{suffix}"` on a path: the suffix is glued
onto the final component. -/
def appendToLast (p : PyPath) (suffix : String) : PyPath :=
  match p with
  | [] => [suffix]
  | [x] => [x ++ suffix]
  | x :: rest => x :: appendToLast rest suffix

/-- `create_bakefiles`: none for `bakefile_type == "none"`; otherwise a
base `docker-bake.hcl` (in `subdir` when `bakefile_location == "subdir"`)
plus an override file when `bakefile_type == "multiple"`. -/
def create_bakefiles (setup_config : SetupConfig) (output_dir : PyPath)
    (render : String → String) : List TemplatedFile :=
  if setup_config.bakefile_type = "none" then []
  else
    let bakefiles_parent_dir :=
      if setup_config.bakefile_location = "subdir" then output_dir ++ ["subdir"]
      else output_dir
    let bake_files :=
      [TemplatedFile.mk (bakefiles_parent_dir ++ ["docker-bake.hcl"])
        (render "docker-bake.hcl")]
    if setup_config.bakefile_type = "multiple" then
      bake_files ++
        [TemplatedFile.mk (bakefiles_parent_dir ++ ["docker-bake.override.hcl"])
          (render "docker-bake.override.hcl")]
    else bake_files

/-- `create_dockerfiles`: always a first build file (`Dockerfile`, or
`Dockerfile.target1` when `dockerfile_type == "multiple"`), plus
`Dockerfile.target2` in the multiple case. -/
def create_dockerfiles (setup_config : SetupConfig) (output_dir : PyPath)
    (render : String → String) : List TemplatedFile :=
  let dockerfiles_parent_dir :=
    if setup_config.dockerfile_location = "subdir" then output_dir ++ ["subdir"]
    else output_dir
  let dockerfiles :=
    [TemplatedFile.mk
      (dockerfiles_parent_dir ++
        [if setup_config.dockerfile_type = "single" then "Dockerfile"
         else "Dockerfile.target1"])
      (render "Dockerfile")]
  if setup_config.dockerfile_type = "multiple" then
    dockerfiles ++
      [TemplatedFile.mk (dockerfiles_parent_dir ++ ["Dockerfile.target2"])
        (render "Dockerfile2")]
  else dockerfiles

/-- `create_dockerignores`: the branch is on `dockerfile_type` — when
`"multiple"`, each dockerfile gets a paired `<file>.dockerignore`
(template `dockerignore<index+1>`) plus the decoy root `.dockerignore`
with content `**/*`; otherwise a single `.dockerignore` at the context
directory, whatever `setup_config.dockerignore` says. -/
def create_dockerignores (setup_config : SetupConfig)
    (dockerfiles : List TemplatedFile) (output_dir : PyPath)
    (render : String → String) : List TemplatedFile :=
  if setup_config.dockerfile_type = "multiple" then
    (dockerfiles.enum.map fun p =>
      TemplatedFile.mk (appendToLast p.2.location ".dockerignore")
        (render ("dockerignore" ++ toString (p.1 + 1))))
    ++ [TemplatedFile.mk (output_dir ++ [".dockerignore"]) "**/*"]
  else
    let dockerignore_path :=
      if setup_config.ctx = "subdir" then output_dir ++ ["subdir"] else output_dir
    [TemplatedFile.mk (dockerignore_path ++ [".dockerignore"]) (render "dockerignore1")]

/-- `create_other_files`: the two auxiliary marker files, written inside
the build context (`subdir` when `context == "subdir"`). -/
def create_other_files (setup_config : SetupConfig) (output_dir : PyPath) :
    List TemplatedFile :=
  let creation_dir :=
    if setup_config.ctx = "subdir" then output_dir ++ ["subdir"] else output_dir
  [TemplatedFile.mk (creation_dir ++ ["included_file.txt"])
    "This is another file in the subdir.",
   TemplatedFile.mk (creation_dir ++ ["excluded_file.txt"])
    "This file should be excluded by .dockerignore."]

/-! ### Tag generation and the mutation passes (run_tests.py) -/

/-- `generate_target_tags(suffix, existing_uuid)` with the uuid supplied
(the fresh-uuid branch draws external randomness; `run_test` reuses
`original_uuid` for every later invocation): returns the uuid and the
two tag lists of the returned dict. -/
def generate_target_tags (suffix existing_uuid : String) :
    String × List String × List String :=
  (existing_uuid,
   ["localhost:5000/" ++ existing_uuid ++ "/target1_1st:" ++ suffix,
    "localhost:5000/" ++ existing_uuid ++ "/target1_2nd:" ++ suffix],
   ["localhost:5000/" ++ existing_uuid ++ "/target2_1st:" ++ suffix,
    "localhost:5000/" ++ existing_uuid ++ "/target2_2nd:" ++ suffix])

/-- All four tags one invocation pushes (`first_target_tags ++
second_target_tags`). -/
def caseTagSet (uuid suffix : String) : List String :=
  (generate_target_tags suffix uuid).2.1 ++ (generate_target_tags suffix uuid).2.2

/-- The excluded/included mutation loop of `run_test`: for `file_type`
in `["excluded", "included"]`, every other-file whose name contains
`file_type` triggers one rebuild tagged `modified-<file_type>`. -/
def mutationPassSuffixes (other_files : List TemplatedFile) : List String :=
  ["excluded", "included"].flatMap fun file_type =>
    (other_files.filter fun file => pyContains file_type (pathName file.location)).map
      fun _ => "modified-" ++ file_type

/-- The tag suffixes of every build invocation of one `run_test` case in
order: the initial build, the excluded/included passes, one rebuild per
bake file, one rebuild per dockerfile. -/
def run_test_invocation_suffixes (other_files bakefiles dockerfiles : List TemplatedFile) :
    List String :=
  "original" :: mutationPassSuffixes other_files
    ++ bakefiles.map (fun _ => "modified-cache-miss-bakefile")
    ++ dockerfiles.map (fun _ => "modified-cache-miss-dockerfile")

/-! ### The cache-verdict check (run_command_with_expectations) -/

/-- The sentinel the runner expects:
`"mimosa-cache-hit: true"` / `"mimosa-cache-hit: false"`. -/
def expectedSentinel (cache_hit : Bool) : String :=
  if cache_hit then "mimosa-cache-hit: true" else "mimosa-cache-hit: false"

/-- The verdict check of `run_command_with_expectations`: raises unless
the expected sentinel is a substring of the captured STDOUT (`stderrS`
is the invocation's captured stderr, which this check never reads). -/
def checkCacheVerdict (stdoutS stderrS : String) (cache_hit : Bool) :
    Except String Unit :=
  if pyContains (expectedSentinel cache_hit) stdoutS then Except.ok ()
  else Except.error ("Expected " ++ expectedSentinel cache_hit ++ " in stdout")

/-! ### The definition-mutation phase of `run_test` -/

/-- Appending `f"\n# Modified at {time.time()}\n"` to a file
(`timestamp` models the `time.time()` reading). -/
def appendNoop (timestamp : String) (f : TemplatedFile) : TemplatedFile :=
  { f with content := f.content ++ "\n# Modified at " ++ timestamp ++ "\n" }

/-- The two definition-mutation loops of `run_test`: one rebuild per bake
file, then one per dockerfile; each step records the file, its mutated
form, and the expected cache verdict (`false` — a miss — in every case). -/
def definitionMutationSteps (timestamp : String)
    (bakefiles dockerfiles : List TemplatedFile) :
    List (TemplatedFile × TemplatedFile × Bool) :=
  bakefiles.map (fun bakefile => (bakefile, appendNoop timestamp bakefile, false))
    ++ dockerfiles.map (fun dockerfile => (dockerfile, appendNoop timestamp dockerfile, false))

/-- The `at_least_one_major_file_change` flag: `False` before the loops,
set to `True` by every iteration of either loop. -/
def atLeastOneMajorFileChange (timestamp : String)
    (bakefiles dockerfiles : List TemplatedFile) : Bool :=
  (definitionMutationSteps timestamp bakefiles dockerfiles).foldl
    (fun _ _ => true) false

/-! ### Command synthesis (tests-integration/command_creator.py)

`tempfile.mkdtemp` (the fallback cache dir) and
`get_disk_cache_to_env` (a subprocess exporting the on-disk cache) are
external: the resolved cache directory and the exported cache content
enter as `final_cache_dir` / `mem_cache`; `os.environ` enters as
`base_env`. The env mapping is an association list in insertion order
(later entries override, as in the Python dict literal). -/

/-- The two ways `generate_docker_command` raises. -/
inductive PyError where
  | valueError (msg : String)
  | indexError
  deriving DecidableEq

/-- `Command` (pydantic model). -/
structure Command where
  command : String
  tagsByTarget : List (String × List String)
  env : List (String × String)
  cwd : PyPath
  deriving DecidableEq

/-- `str(path)` for a relative path. -/
def joinPath (p : PyPath) : String := String.intercalate "/" p

/-- `location.relative_to(cwd)`: every call site passes a location that
extends `output_dir`, so relativization drops that prefix. -/
def relativeTo (base p : PyPath) : PyPath := p.drop base.length

/-- `generate_docker_command` (command_creator.py), both branches. -/
def generate_docker_command (setup_config : SetupConfig)
    (dockerfiles bakefiles : List TemplatedFile) (output_dir : PyPath)
    (first_target_tags second_target_tags : List String)
    (final_cache_dir : String) (cache_source : Option String)
    (mem_cache : String) (base_env : List (String × String)) :
    Except PyError Command :=
  let extra_env : List (String × String) :=
    if cache_source = some "memory" then [("MIMOSA_CACHE", mem_cache)] else []
  if setup_config.bakefile_type = "none" then
    if dockerfiles.length > 1 then
      Except.error (PyError.valueError "Cannot build multiple dockerfiles with no bakefile")
    else
      match dockerfiles with
      | [] => Except.error PyError.indexError
      | dockerfile :: _ =>
        let dockerfileRelativePath := joinPath (relativeTo output_dir dockerfile.location)
        let dockerFileArg :=
          if dockerfileRelativePath = "Dockerfile" ∧ setup_config.ctx = "cwd" then ""
          else "-f '" ++ dockerfileRelativePath ++ "'"
        let dockerTagsArg :=
          String.intercalate " " (first_target_tags.map (fun tag => "-t " ++ tag))
        let context_arg := if setup_config.ctx = "cwd" then "." else "subdir"
        Except.ok
          { command :=
              "/usr/local/bin/mimosa remember -- docker buildx build --push --platform linux/amd64,linux/arm64 "
                ++ dockerFileArg ++ " " ++ dockerTagsArg ++ " " ++ context_arg
            tagsByTarget := [("target1", first_target_tags)]
            env := base_env
              ++ [("LOG_LEVEL", "DEBUG"), ("MIMOSA_CACHE_DIR", final_cache_dir)]
              ++ extra_env
            cwd := output_dir }
  else
    let bakeFileArg :=
      if setup_config.bakefile_location = "subdir" then
        String.intercalate " "
          (bakefiles.map fun bakefile =>
            "-f " ++ joinPath (relativeTo output_dir bakefile.location))
      else ""
    let tagsByTarget :=
      [("target1", first_target_tags)] ++
        (if setup_config.targets = "multiple" then [("target2", second_target_tags)]
         else [])
    Except.ok
      { command := "/usr/local/bin/mimosa remember -- docker buildx bake --push " ++ bakeFileArg
        tagsByTarget := tagsByTarget
        env := base_env
          ++ [("LOG_LEVEL", "DEBUG"),
              ("TARGET1_TAGS", String.intercalate "," first_target_tags),
              ("TARGET2_TAGS", String.intercalate "," second_target_tags),
              ("MIMOSA_CACHE_DIR", final_cache_dir)]
          ++ extra_env
        cwd := output_dir }

/-! ### The scheduler loop of `main` (run_tests.py)

State: the `pending_test_configs` deque and the `running_processes`
list. One step either starts a pending worker — only taken while
`len(running_processes) < max_workers`, as the inner `while` demands —
or removes a finished worker in the poll pass (a failing worker
additionally aborts the loop, which from the bound's standpoint just
means no further steps are taken). -/

def max_workers : Nat := 5

/-- Scheduler state: pending configs and in-flight workers (each worker
carries the config it runs). -/
structure SchedulerState where
  pending : List SetupDict
  running : List SetupDict

/-- One iteration-step of the scheduling loop. -/
inductive SchedulerStep : SchedulerState → SchedulerState → Prop where
  | start (s : SchedulerState) (cfg : SetupDict) (rest : List SetupDict) :
      s.pending = cfg :: rest → s.running.length < max_workers →
      SchedulerStep s ⟨rest, s.running ++ [cfg]⟩
  | finish (s : SchedulerState) (w : SetupDict) (pre post : List SetupDict) :
      s.running = pre ++ w :: post →
      SchedulerStep s ⟨s.pending, pre ++ post⟩

/-- States the scheduling loop can reach from an initial state. -/
inductive SchedulerReach (init : SchedulerState) : SchedulerState → Prop where
  | refl : SchedulerReach init init
  | step {s s' : SchedulerState} :
      SchedulerReach init s → SchedulerStep s s' → SchedulerReach init s'

/-! ### Registry client (tests-integration/docker.py, `get_tag_manifest`)

The HTTP transport is external: `get_tag_manifest` is modelled on the
response it receives (status code, headers, parsed JSON body, raw text).
Transport-level timeouts/connection failures raise
`RegistryConnectionError` in wrapper code outside this pure function.
`manifest.get("platform", {})`-style JSON access is mirrored with
`Option` fields; `digest`, `size` and `mediaType` are accessed with
`manifest[...]`, so the shallow body type keeps them required. httpx
response headers are looked up case-insensitively. -/

structure RawPlatform where
  os : Option String
  architecture : Option String
  variant : Option String
  deriving DecidableEq

structure RawManifest where
  platform : Option RawPlatform
  digest : String
  size : Nat
  mediaType : String
  deriving DecidableEq

structure ManifestBody where
  schemaVersion : Option Nat
  mediaType : Option String
  manifests : Option (List RawManifest)
  deriving DecidableEq

structure HttpResponse where
  status_code : Nat
  headers : List (String × String)
  body : ManifestBody
  text : String
  deriving DecidableEq

structure Platform where
  os : String
  architecture : String
  variant : Option String
  deriving DecidableEq

structure PlatformManifest where
  platform : Platform
  digest : String
  size : Nat
  mediaType : String
  deriving DecidableEq

structure ManifestResponse where
  digest : String
  schemaVersion : Nat
  mediaType : String
  manifests : List PlatformManifest
  deriving DecidableEq

/-- `RegistryError` and its `ManifestNotFoundError` subclass as raised
by `get_tag_manifest`. -/
inductive RegistryFailure where
  | manifestNotFound (msg : String)
  | registryError (msg : String)
  deriving DecidableEq

/-- Per-character ASCII lowercasing (the header normalization httpx
applies to header names). -/
def lowerStr (s : String) : String := ⟨s.data.map Char.toLower⟩

/-- `response.headers.get(k, dflt)` — httpx header names are
case-insensitive. -/
def getHeaderD (headers : List (String × String)) (key dflt : String) : String :=
  match headers.find? (fun p => lowerStr p.1 == lowerStr key) with
  | some p => p.2
  | none => dflt

/-- The platform-manifest parsing loop of `get_tag_manifest`. -/
def parsePlatformManifests (ms : List RawManifest) : List PlatformManifest :=
  ms.map fun manifest =>
    { platform :=
        { os := ((manifest.platform).bind RawPlatform.os).getD ""
          architecture := ((manifest.platform).bind RawPlatform.architecture).getD ""
          variant := (manifest.platform).bind RawPlatform.variant }
      digest := manifest.digest
      size := manifest.size
      mediaType := manifest.mediaType }

/-- `get_tag_manifest` on a received response: 404 raises
`ManifestNotFoundError`, any other non-200 raises `RegistryError`, a 200
whose `Docker-Content-Digest` header is missing or empty raises
`RegistryError`, and only then is a `ManifestResponse` built. -/
def get_tag_manifest (image tag : String) (response : HttpResponse) :
    Except RegistryFailure ManifestResponse :=
  if response.status_code = 404 then
    Except.error (RegistryFailure.manifestNotFound
      ("Manifest not found for " ++ image ++ ":" ++ tag))
  else if response.status_code ≠ 200 then
    Except.error (RegistryFailure.registryError
      ("Registry API error: " ++ toString response.status_code ++ " - " ++ response.text))
  else
    let digest := getHeaderD response.headers "Docker-Content-Digest" ""
    if digest = "" then
      Except.error (RegistryFailure.registryError
        "Missing Docker-Content-Digest header in response")
    else
      Except.ok
        { digest := digest
          schemaVersion := response.body.schemaVersion.getD 2
          mediaType := response.body.mediaType.getD ""
          manifests :=
            match response.body.manifests with
            | some ms => parsePlatformManifests ms
            | none => [] }

/-! ### Concrete fixtures used by witnesses and counterexamples -/

/-- A stand-in template renderer for concrete evaluations. -/
def renderStub : String → String := fun name => "rendered:" ++ name

/-- A valid, non-pruned configuration with `dockerignore = "none"`. -/
def cfgIgnoreNone : SetupConfig :=
  ⟨"single", "root", "single", "root", "single", "none", "cwd", "disk"⟩

/-- A valid, non-pruned configuration with everything `multiple`. -/
def cfgMulti : SetupConfig :=
  ⟨"multiple", "root", "multiple", "root", "multiple", "multiple", "cwd", "disk"⟩

/-- A valid, non-pruned configuration with `bakefile_type = "none"`. -/
def cfgBakeNone : SetupConfig :=
  ⟨"none", "root", "single", "root", "single", "single", "cwd", "disk"⟩

/-! ## Theorems -/

/-! ### Splitting helpers -/

theorem rsplitChar_cons (c a : Char) (l : List Char) :
    rsplitChar c (a :: l) =
      match rsplitChar c l with
      | some (pre, post) => some (a :: pre, post)
      | none => if a = c then some ([], l) else none := by
  rfl

theorem rsplitChar_eq (c : Char) :
    ∀ (l pre post : List Char), rsplitChar c l = some (pre, post) →
      l = pre ++ c :: post := by
  intro l
  induction l with
  | nil => intro pre post h; simp [rsplitChar] at h
  | cons a rest ih =>
    intro pre post h
    rw [rsplitChar_cons] at h
    cases hr : rsplitChar c rest with
    | some pq =>
      obtain ⟨p, q⟩ := pq
      rw [hr] at h
      simp only [Option.some.injEq, Prod.mk.injEq] at h
      obtain ⟨h1, h2⟩ := h
      rw [← h1, ← h2]
      have hrest := ih p q hr
      rw [hrest]
      rfl
    | none =>
      rw [hr] at h
      by_cases hac : a = c
      · rw [if_pos hac] at h
        simp only [Option.some.injEq, Prod.mk.injEq] at h
        obtain ⟨h1, h2⟩ := h
        subst h1
        subst h2
        rw [hac]
        rfl
      · rw [if_neg hac] at h
        exact absurd h (by simp)

theorem rsplitChar_none (c : Char) :
    ∀ (m : List Char), c ∉ m → rsplitChar c m = none := by
  intro m
  induction m with
  | nil => intro _; rfl
  | cons a rest ih =>
    intro hm
    simp only [List.mem_cons, not_or] at hm
    rw [rsplitChar_cons, ih hm.2, if_neg (fun h => hm.1 h.symm)]

theorem rsplitChar_append (c : Char) (pre post : List Char) (hc : c ∉ post) :
    rsplitChar c (pre ++ c :: post) = some (pre, post) := by
  induction pre with
  | nil =>
    rw [List.nil_append, rsplitChar_cons, rsplitChar_none c post hc, if_pos rfl]
  | cons a rest ih =>
    rw [List.cons_append, rsplitChar_cons, ih]

theorem intercalate_pair (c : Char) (a b : List Char) :
    [c].intercalate [a, b] = a ++ c :: b := by
  simp [List.intercalate, List.intersperse]

theorem splitOn_pair_eq (c : Char) (l a b : List Char)
    (h : l.splitOn c = [a, b]) : l = a ++ c :: b := by
  have hj := List.intercalate_splitOn l c
  rw [h, intercalate_pair] at hj
  exact hj.symm

theorem splitOn_of_pair (c : Char) (a b : List Char)
    (ha : c ∉ a) (hb : c ∉ b) : (a ++ c :: b).splitOn c = [a, b] := by
  have := List.splitOn_intercalate [a, b] c
    (by intro l hl; simp at hl; rcases hl with h | h <;> subst h <;> assumption)
    (by simp)
  rwa [intercalate_pair] at this

theorem string_data_append (a b : String) : (a ++ b).data = a.data ++ b.data := by
  cases a; cases b; rfl

theorem string_ext_data (a b : String) (h : a.data = b.data) : a = b :=
  congrArg String.mk h

/-- General shape of a successful decomposition at the list level:
re-joining the three components restores the input with `http://`
prepended (the code prefixes the hostname with `http://`). -/
theorem decomposeTagL_rejoin (tag h i t : List Char)
    (hd : decomposeTagL tag = some (h, i, t)) :
    h ++ '/' :: (i ++ ':' :: t) = "http://".data ++ tag := by
  unfold decomposeTagL at hd
  cases hr : rsplitChar '/' tag with
  | none => rw [hr] at hd; simp at hd
  | some pq =>
    obtain ⟨pre, post⟩ := pq
    rw [hr] at hd
    dsimp only at hd
    cases hs : post.splitOn ':' with
    | nil => rw [hs] at hd; simp at hd
    | cons x xs =>
      cases xs with
      | nil => rw [hs] at hd; simp at hd
      | cons y ys =>
        cases ys with
        | nil =>
          rw [hs] at hd
          dsimp only at hd
          simp only [Option.some.injEq, Prod.mk.injEq] at hd
          obtain ⟨h1, h2, h3⟩ := hd
          have htag := rsplitChar_eq '/' tag pre post hr
          have hpost := splitOn_pair_eq ':' post x y hs
          subst h1; subst h2; subst h3
          rw [htag, hpost]
          simp [List.append_assoc]
        | cons z zs => rw [hs] at hd; simp at hd

/-- Last-slash characterization at the list level: `decompose_tag` splits
at the LAST slash of the tag (via `rindex("/")`), so everything before it
— slashes, colons and all — lands in the hostname component, and the
image-name component can never contain a slash. -/
theorem decomposeTagL_last_slash (pre i t : List Char)
    (hi : '/' ∉ i) (hic : ':' ∉ i) (hts : '/' ∉ t) (htc : ':' ∉ t) :
    decomposeTagL (pre ++ '/' :: (i ++ ':' :: t)) =
      some ("http://".data ++ pre, i, t) := by
  have hpost : '/' ∉ i ++ ':' :: t := by
    simp only [List.mem_append, List.mem_cons, not_or]
    exact ⟨hi, by decide, hts⟩
  unfold decomposeTagL
  rw [rsplitChar_append '/' pre (i ++ ':' :: t) hpost]
  dsimp only
  rw [splitOn_of_pair ':' i t hic htc]

/-- C3 (counterexample): decomposing `localhost:5000/img:orig` and
re-joining the triple as `registry_host ++ "/" ++ image_path ++ ":" ++
tag_name` does NOT restore the original tag string: `decompose_tag`
prefixes the registry host with `http://`. -/
theorem decomposeTag_roundtrip_fails :
    decompose_tag "localhost:5000/img:orig" =
      some ("http://localhost:5000", "img", "orig") ∧
    "http://localhost:5000" ++ "/" ++ "img" ++ ":" ++ "orig" ≠
      "localhost:5000/img:orig" := by
  refine ⟨by decide, by decide⟩

/-- C3 (amended): whenever `decompose_tag` succeeds, re-joining its
triple as `registry_host ++ "/" ++ image_path ++ ":" ++ tag_name` yields
`"http://" ++ tag`, the original tag string with the `http://` scheme
prefix the code adds to the hostname component. -/
theorem decomposeTag_rejoin_prepends_http (tag h i t : String)
    (hd : decompose_tag tag = some (h, i, t)) :
    h ++ "/" ++ i ++ ":" ++ t = "http://" ++ tag := by
  unfold decompose_tag at hd
  cases hl : decomposeTagL tag.data with
  | none => rw [hl] at hd; simp at hd
  | some hit =>
    obtain ⟨hh, ii, tt⟩ := hit
    rw [hl] at hd
    dsimp only at hd
    simp only [Option.some.injEq, Prod.mk.injEq] at hd
    obtain ⟨h1, h2, h3⟩ := hd
    subst h1; subst h2; subst h3
    apply string_ext_data
    simp only [string_data_append]
    have hre := decomposeTagL_rejoin tag.data hh ii tt hl
    rw [← hre]
    simp

/-- Witness for `decomposeTag_rejoin_prepends_http` at a concrete tag. -/
theorem decomposeTag_rejoin_prepends_http_witness :
    "http://localhost:5000" ++ "/" ++ "img" ++ ":" ++ "orig" =
      "http://" ++ "localhost:5000/img:orig" :=
  decomposeTag_rejoin_prepends_http "localhost:5000/img:orig"
    "http://localhost:5000" "img" "orig" (by decide)

/-- C4 (counterexample): on `host:5000/a/b:t` the code does NOT return
registry host `host:5000` and image path `a/b`; it splits at the LAST
slash, returning hostname `http://host:5000/a` and image path `b`. -/
theorem decomposeTag_first_slash_fails :
    decompose_tag "host:5000/a/b:t" =
      some ("http://host:5000/a", "b", "t") ∧
    "http://host:5000/a" ≠ "host:5000" ∧ "b" ≠ "a/b" := by
  refine ⟨by decide, by decide, by decide⟩

/-- C4 (amended): `decompose_tag` splits at the LAST slash and at the
single colon of the final segment: for an input `pre ++ "/" ++ i ++ ":"
++ t` whose `i` and `t` contain no slash and no colon, the registry host
component is `"http://" ++ pre` (everything before the last slash,
including any earlier slashes of the image path), the image component is
`i`, and the tag component is `t`. -/
theorem decomposeTag_splits_at_last_slash (pre i t : List Char)
    (hi : '/' ∉ i) (hic : ':' ∉ i) (hts : '/' ∉ t) (htc : ':' ∉ t) :
    decompose_tag ⟨pre ++ '/' :: (i ++ ':' :: t)⟩ =
      some (⟨"http://".data ++ pre⟩, ⟨i⟩, ⟨t⟩) := by
  unfold decompose_tag
  rw [show (String.mk (pre ++ '/' :: (i ++ ':' :: t))).data =
    pre ++ '/' :: (i ++ ':' :: t) from rfl]
  rw [decomposeTagL_last_slash pre i t hi hic hts htc]

/-- Witness for `decomposeTag_splits_at_last_slash`: on
`host:5000/a/b:t` the registry host is `http://host:5000/a`. -/
theorem decomposeTag_splits_at_last_slash_witness :
    decompose_tag ⟨"host:5000/a".data ++ '/' :: ("b".data ++ ':' :: "t".data)⟩ =
      some (⟨"http://".data ++ "host:5000/a".data⟩, ⟨"b".data⟩, ⟨"t".data⟩) :=
  decomposeTag_splits_at_last_slash "host:5000/a".data "b".data "t".data
    (by decide) (by decide) (by decide) (by decide)

/-- C1 (code_bug evaluation): the enumeration loop of `main` never
produces a `cache_source` key — the seven nested loops cover every
`SetupConfig` field except `cache_source` — and `SetupConfig(**cfg)` in
`run_test_worker` therefore fails pydantic validation ("field required:
cache_source") already on the first enumerated configuration. -/
theorem enumerate_omits_cache_source :
    (enumerate_test_configs {}).all
      (fun d => d.lookup "cache_source" == none) = true ∧
    [("bakefile_type", "single"), ("bakefile_location", "root"),
     ("dockerfile_type", "single"), ("dockerfile_location", "root"),
     ("targets", "single"), ("dockerignore", "single"), ("context", "cwd")]
      ∈ enumerate_test_configs {} ∧
    SetupConfig.ofDict
      [("bakefile_type", "single"), ("bakefile_location", "root"),
       ("dockerfile_type", "single"), ("dockerfile_location", "root"),
       ("targets", "single"), ("dockerignore", "single"), ("context", "cwd")] =
      Except.error "field required: cache_source" := by
  refine ⟨by decide, by decide, by rfl⟩

/-- C2 (counterexample): for the valid configuration `cfgIgnoreNone`,
whose ignore-variant field is `"none"`, the scaffold still writes
exactly one ignore file: `create_dockerignores` branches on
`dockerfile_type`, never reading `setup_config.dockerignore`. -/
theorem create_dockerignores_ignores_ignore_variant :
    cfgIgnoreNone.dockerignore = "none" ∧
    (create_dockerignores cfgIgnoreNone
        (create_dockerfiles cfgIgnoreNone [] renderStub) [] renderStub).length = 1 := by
  refine ⟨rfl, rfl⟩

/-- C2 (amended): ignore-file creation is driven by the configuration's
`dockerfile_type` field: when it is `"multiple"`, every build-definition
file gets its own paired `<file>.dockerignore` plus one decoy
`.dockerignore` (content `**/*`) at the working-directory root;
otherwise exactly one `.dockerignore` is written at the context
directory — in both cases regardless of the ignore-variant field. -/
theorem create_dockerignores_driven_by_dockerfile_type
    (setup_config : SetupConfig) (dockerfiles : List TemplatedFile)
    (output_dir : PyPath) (render : String → String) :
    ((create_dockerignores setup_config dockerfiles output_dir render).length =
      if setup_config.dockerfile_type = "multiple" then dockerfiles.length + 1
      else 1) ∧
    (setup_config.dockerfile_type = "multiple" →
      (∀ df ∈ dockerfiles,
        appendToLast df.location ".dockerignore" ∈
          (create_dockerignores setup_config dockerfiles output_dir render).map
            TemplatedFile.location) ∧
      TemplatedFile.mk (output_dir ++ [".dockerignore"]) "**/*" ∈
        create_dockerignores setup_config dockerfiles output_dir render) ∧
    (setup_config.dockerfile_type ≠ "multiple" →
      (create_dockerignores setup_config dockerfiles output_dir render).map
          TemplatedFile.location =
        [(if setup_config.ctx = "subdir" then output_dir ++ ["subdir"]
          else output_dir) ++ [".dockerignore"]]) := by
  by_cases hm : setup_config.dockerfile_type = "multiple"
  · refine ⟨?_, fun _ => ⟨?_, ?_⟩, fun hn => absurd hm hn⟩
    · simp [create_dockerignores, hm]
    · intro df hdf
      have hsnd : df ∈ dockerfiles.enum.map Prod.snd := by
        rw [List.enum_map_snd]; exact hdf
      obtain ⟨p, hp, hpe⟩ := List.mem_map.1 hsnd
      simp only [create_dockerignores, if_pos hm, List.map_append, List.map_map,
        List.mem_append]
      left
      refine List.mem_map.2 ⟨p, hp, ?_⟩
      simp [Function.comp, hpe]
    · simp [create_dockerignores, hm]
  · refine ⟨?_, fun h => absurd h hm, fun _ => ?_⟩
    · simp [create_dockerignores, hm]
    · simp [create_dockerignores, hm]

/-- Witness for `create_dockerignores_driven_by_dockerfile_type`: with
`cfgMulti` the decoy root `.dockerignore` is among the written files. -/
theorem create_dockerignores_driven_witness :
    TemplatedFile.mk ([] ++ [".dockerignore"]) "**/*" ∈
      create_dockerignores cfgMulti (create_dockerfiles cfgMulti [] renderStub) []
        renderStub :=
  ((create_dockerignores_driven_by_dockerfile_type cfgMulti
      (create_dockerfiles cfgMulti [] renderStub) [] renderStub).2.1 rfl).2

theorem foldl_true_of_ne_nil {α : Type} (xs : List α) (hx : xs ≠ []) :
    xs.foldl (fun _ _ => true) false = true := by
  cases xs with
  | nil => exact absurd rfl hx
  | cons a rest =>
    have htrue : ∀ (ys : List α), ys.foldl (fun _ _ => true) true = true := by
      intro ys
      induction ys with
      | nil => rfl
      | cons b bs ih => exact ih
    exact htrue rest

theorem create_dockerfiles_ne_nil (setup_config : SetupConfig)
    (output_dir : PyPath) (render : String → String) :
    create_dockerfiles setup_config output_dir render ≠ [] := by
  unfold create_dockerfiles
  by_cases hm : setup_config.dockerfile_type = "multiple" <;> simp [hm]

/-- C7: the definition-mutation phase of `run_test` appends the no-op
comment line to every existing bake file and every existing
build-definition file — each exactly once, bake files first — expects a
cache miss on every such rebuild, and its
`at_least_one_major_file_change` assertion holds for every scaffold,
because `create_dockerfiles` always creates at least one dockerfile. -/
theorem definition_mutations_cover_all_files (timestamp : String)
    (bakefiles : List TemplatedFile) (setup_config : SetupConfig)
    (output_dir : PyPath) (render : String → String) :
    ((definitionMutationSteps timestamp bakefiles
        (create_dockerfiles setup_config output_dir render)).map (fun s => s.1) =
      bakefiles ++ create_dockerfiles setup_config output_dir render) ∧
    (∀ s ∈ definitionMutationSteps timestamp bakefiles
        (create_dockerfiles setup_config output_dir render),
      s.2.1 = appendNoop timestamp s.1 ∧ s.2.2 = false) ∧
    atLeastOneMajorFileChange timestamp bakefiles
      (create_dockerfiles setup_config output_dir render) = true := by
  refine ⟨?_, ?_, ?_⟩
  · have hmap : ∀ (l : List TemplatedFile),
        (l.map fun f => (f, appendNoop timestamp f, false)).map (fun s => s.1) = l := by
      intro l
      induction l with
      | nil => rfl
      | cons x xs ih => simpa using ih
    unfold definitionMutationSteps
    rw [List.map_append, hmap, hmap]
  · intro s hs
    simp only [definitionMutationSteps, List.mem_append, List.mem_map] at hs
    rcases hs with ⟨f, _, hf⟩ | ⟨f, _, hf⟩ <;> rw [← hf] <;> exact ⟨rfl, rfl⟩
  · unfold atLeastOneMajorFileChange
    apply foldl_true_of_ne_nil
    intro hsteps
    unfold definitionMutationSteps at hsteps
    rcases List.append_eq_nil.mp hsteps with ⟨_, hmap⟩
    exact create_dockerfiles_ne_nil setup_config output_dir render
      (List.map_eq_nil_iff.mp hmap)

/-- Witness for `definition_mutations_cover_all_files`: with no bake
files and the `cfgBakeNone` scaffold the assertion still holds. -/
theorem definition_mutations_cover_all_files_witness :
    atLeastOneMajorFileChange "0" []
      (create_dockerfiles cfgBakeNone [] renderStub) = true :=
  (definition_mutations_cover_all_files "0" [] cfgBakeNone [] renderStub).2.2

/-- C8 (counterexample): with `bakefile_type = "none"` and an EMPTY
dockerfile list, `generate_docker_command` fails with an index error
(`dockerfiles[0]` on an empty list), not with the `ValueError` the
claim names for every list whose length differs from one. -/
theorem generate_docker_command_empty_fails_differently :
    generate_docker_command cfgBakeNone [] [] [] [] [] "cache" none "" [] =
      Except.error PyError.indexError ∧
    PyError.indexError ≠
      PyError.valueError "Cannot build multiple dockerfiles with no bakefile" := by
  refine ⟨rfl, by decide⟩

/-- C8 (amended): in the `bakefile_type == "none"` branch of
`generate_docker_command`, more than one dockerfile raises
`ValueError("Cannot build multiple dockerfiles with no bakefile")`, zero
dockerfiles fails with an index error instead, and exactly one
dockerfile always yields a command. -/
theorem generate_docker_command_none_branch (setup_config : SetupConfig)
    (dockerfiles bakefiles : List TemplatedFile) (output_dir : PyPath)
    (first_target_tags second_target_tags : List String)
    (final_cache_dir : String) (cache_source : Option String)
    (mem_cache : String) (base_env : List (String × String))
    (hb : setup_config.bakefile_type = "none") :
    (dockerfiles.length > 1 →
      generate_docker_command setup_config dockerfiles bakefiles output_dir
          first_target_tags second_target_tags final_cache_dir cache_source
          mem_cache base_env =
        Except.error (PyError.valueError
          "Cannot build multiple dockerfiles with no bakefile")) ∧
    (dockerfiles = [] →
      generate_docker_command setup_config dockerfiles bakefiles output_dir
          first_target_tags second_target_tags final_cache_dir cache_source
          mem_cache base_env =
        Except.error PyError.indexError) ∧
    (∀ df, dockerfiles = [df] →
      ∃ c, generate_docker_command setup_config dockerfiles bakefiles output_dir
          first_target_tags second_target_tags final_cache_dir cache_source
          mem_cache base_env = Except.ok c) := by
  refine ⟨?_, ?_, ?_⟩
  · intro hlen
    simp [generate_docker_command, hb, hlen]
  · intro he
    subst he
    simp [generate_docker_command, hb]
  · intro df he
    subst he
    cases hgen : generate_docker_command setup_config [df] bakefiles output_dir
        first_target_tags second_target_tags final_cache_dir cache_source
        mem_cache base_env with
    | error e =>
      exfalso
      simp [generate_docker_command, hb] at hgen
    | ok c => exact ⟨c, rfl⟩

/-- Witness for `generate_docker_command_none_branch`: one dockerfile
yields a command. -/
theorem generate_docker_command_none_branch_witness :
    ∃ c, generate_docker_command cfgBakeNone [TemplatedFile.mk ["Dockerfile"] "c"]
        [] [] ["localhost:5000/u/target1_1st:original"] [] "cachedir" none "" [] =
      Except.ok c :=
  (generate_docker_command_none_branch cfgBakeNone
      [TemplatedFile.mk ["Dockerfile"] "c"] [] []
      ["localhost:5000/u/target1_1st:original"] [] "cachedir" none "" [] rfl).2.2
    (TemplatedFile.mk ["Dockerfile"] "c") rfl

/-- C5 (counterexample): the runner's verdict check reads only STDOUT
and is a plain substring test: an invocation whose combined
stdout+stderr contains the expected sentinel exactly once — in stderr —
is FAILED, while a stdout carrying the sentinel twice (combined count 2,
not "exactly once") is accepted. -/
theorem cache_verdict_not_combined_streams :
    countOccur (expectedSentinel false) ("" ++ "mimosa-cache-hit: false") = 1 ∧
    checkCacheVerdict "" "mimosa-cache-hit: false" false =
      Except.error "Expected mimosa-cache-hit: false in stdout" ∧
    countOccur (expectedSentinel false)
      ("mimosa-cache-hit: false mimosa-cache-hit: false" ++ "") = 2 ∧
    checkCacheVerdict "mimosa-cache-hit: false mimosa-cache-hit: false" "" false =
      Except.ok () := by
  refine ⟨by decide, by rfl, by decide, by rfl⟩

/-- C5 (amended): the cache-hit/miss verdict is decided by substring
presence of the expected sentinel in STDOUT alone: the check succeeds
iff the sentinel occurs in stdout (once or more), and the captured
stderr never influences the outcome. -/
theorem cache_verdict_decided_by_stdout (stdoutS err1 err2 : String)
    (cache_hit : Bool) :
    (checkCacheVerdict stdoutS err1 cache_hit = Except.ok () ↔
      (expectedSentinel cache_hit).data <:+: stdoutS.data) ∧
    checkCacheVerdict stdoutS err1 cache_hit =
      checkCacheVerdict stdoutS err2 cache_hit := by
  constructor
  · unfold checkCacheVerdict pyContains
    by_cases hc : (expectedSentinel cache_hit).data <:+: stdoutS.data
    · simp [hc]
    · simp [hc]
  · rfl

theorem tag_components_cancel (uuid m1 m2 s1 s2 : String)
    (h : "localhost:5000/" ++ uuid ++ m1 ++ s1 =
      "localhost:5000/" ++ uuid ++ m2 ++ s2)
    (hm : m1.data.length = m2.data.length) :
    m1 = m2 ∧ s1 = s2 := by
  have hd := congrArg String.data h
  simp only [string_data_append, List.append_assoc] at hd
  have h1 := List.append_cancel_left hd
  have h2 := List.append_cancel_left h1
  obtain ⟨hm2, hs2⟩ := List.append_inj h2 hm
  exact ⟨string_ext_data _ _ hm2, string_ext_data _ _ hs2⟩

/-- C6 (counterexample): in a case whose configuration has two bake
files (`cfgMulti`), the two bakefile-mutation rebuilds are distinct
build invocations (positions 3 and 4 of the case's invocation sequence)
yet receive the IDENTICAL non-empty tag set: both are generated from the
shared case uuid with the same suffix `modified-cache-miss-bakefile`, so
the invocations' tag sets are not pairwise disjoint. -/
theorem run_test_tag_sets_collide :
    ((run_test_invocation_suffixes (create_other_files cfgMulti [])
        (create_bakefiles cfgMulti [] renderStub)
        (create_dockerfiles cfgMulti [] renderStub)).map (caseTagSet "u")).get? 3 =
      some (caseTagSet "u" "modified-cache-miss-bakefile") ∧
    ((run_test_invocation_suffixes (create_other_files cfgMulti [])
        (create_bakefiles cfgMulti [] renderStub)
        (create_dockerfiles cfgMulti [] renderStub)).map (caseTagSet "u")).get? 4 =
      some (caseTagSet "u" "modified-cache-miss-bakefile") ∧
    caseTagSet "u" "modified-cache-miss-bakefile" ≠ [] := by
  refine ⟨by decide, by decide, by decide⟩

/-- C6 (amended): one case's build invocations have pairwise disjoint
tag sets whenever their generation suffixes differ (the initial build
and the excluded/included passes always do); the only collisions are
between same-phase invocations — the per-bakefile rebuilds share one
suffix, as do the per-dockerfile rebuilds — which reuse the identical
tag set, since a tag is determined by the case uuid, a fixed target
name, and the suffix. -/
theorem caseTagSet_disjoint_of_ne_suffix (uuid s1 s2 : String) (hne : s1 ≠ s2) :
    ∀ x ∈ caseTagSet uuid s1, x ∉ caseTagSet uuid s2 := by
  intro x hx hx2
  simp only [caseTagSet, generate_target_tags, List.mem_append, List.mem_cons,
    List.not_mem_nil, or_false] at hx hx2
  rcases hx with (h | h) | (h | h) <;> rcases hx2 with (h2 | h2) | (h2 | h2) <;>
    exact hne (tag_components_cancel uuid _ _ s1 s2 (h.symm.trans h2) (by decide)).2

/-- Witness for `caseTagSet_disjoint_of_ne_suffix`: the initial build's
first tag does not recur in the excluded-mutation pass's tag set. -/
theorem caseTagSet_disjoint_witness :
    "localhost:5000/u/target1_1st:original" ∉
      caseTagSet "u" "modified-excluded" :=
  caseTagSet_disjoint_of_ne_suffix "u" "original" "modified-excluded" (by decide)
    "localhost:5000/u/target1_1st:original" (by decide)

/-- C9: every state the scheduling loop of `main` reaches from an
initial state with no running workers keeps the number of in-flight
worker processes at or below `max_workers` (5): the inner start loop
admits a new worker only while strictly fewer than `max_workers` are
running, and polling only removes workers. -/
theorem scheduler_workers_bounded (cfgs : List SetupDict) (s : SchedulerState)
    (hreach : SchedulerReach ⟨cfgs, []⟩ s) : s.running.length ≤ max_workers := by
  induction hreach with
  | refl => simp [max_workers]
  | step hr hstep ih =>
    cases hstep with
    | start cfg rest hp hlt =>
      simp only [List.length_append, List.length_singleton]
      omega
    | finish w pre post hrun =>
      rw [hrun] at ih
      simp only [List.length_append, List.length_cons] at ih ⊢
      omega

/-- Witness for `scheduler_workers_bounded` at a concrete one-step run:
after starting the single pending worker the bound holds. -/
theorem scheduler_workers_bounded_witness :
    (SchedulerState.mk [] [[("bakefile_type", "single")]]).running.length ≤
      max_workers :=
  scheduler_workers_bounded [[("bakefile_type", "single")]] _
    (SchedulerReach.step SchedulerReach.refl
      (SchedulerStep.start ⟨[[("bakefile_type", "single")]], []⟩
        [("bakefile_type", "single")] [] rfl (by decide)))

/-- C10: `get_tag_manifest` rejects a 200 registry response whose
`Docker-Content-Digest` header is missing or empty with a
`RegistryError`, despite the successful HTTP status; a
`ManifestResponse` is returned only when that header is non-empty, and
then its digest is exactly the header value. -/
theorem get_tag_manifest_requires_digest_header (image tag : String)
    (response : HttpResponse) :
    (response.status_code = 200 →
      getHeaderD response.headers "Docker-Content-Digest" "" = "" →
      get_tag_manifest image tag response =
        Except.error (RegistryFailure.registryError
          "Missing Docker-Content-Digest header in response")) ∧
    (∀ m, get_tag_manifest image tag response = Except.ok m →
      getHeaderD response.headers "Docker-Content-Digest" "" ≠ "" ∧
      m.digest = getHeaderD response.headers "Docker-Content-Digest" "") := by
  constructor
  · intro h200 hdg
    simp [get_tag_manifest, h200, hdg]
  · intro m hm
    unfold get_tag_manifest at hm
    split at hm
    · exact absurd hm (by simp)
    · split at hm
      · exact absurd hm (by simp)
      · dsimp only at hm
        split at hm
        · exact absurd hm (by simp)
        · rename_i hdg
          simp only [Except.ok.injEq] at hm
          subst hm
          exact ⟨hdg, rfl⟩

/-- Witness for `get_tag_manifest_requires_digest_header`: a concrete
200 response without the digest header is rejected. -/
theorem get_tag_manifest_requires_digest_header_witness :
    get_tag_manifest "img" "tagname"
        ⟨200, [("Content-Type", "application/json")], ⟨none, none, none⟩, ""⟩ =
      Except.error (RegistryFailure.registryError
        "Missing Docker-Content-Digest header in response") :=
  (get_tag_manifest_requires_digest_header "img" "tagname"
      ⟨200, [("Content-Type", "application/json")], ⟨none, none, none⟩, ""⟩).1
    rfl (by decide)

end Mimosa
